import Mathlib

/-!
Shallow embedding of `src/NURBSCurve3D.cpp` (class `NURBSCurve3D`, a wrapper
around the SISL spline library).

The SISL library itself is opaque: it is modelled as a record of total
functions (`SISLLib`) returning the values the C API writes through its output
pointers, together with the integer status code.  The wrapper's state (the
fields of the C++ class) is an explicit record, and every member function is a
state-passing function returning `Except Err _` for the C++ exceptions.

Scalars are taken in an arbitrary linear ordered field `K` (the C++ code uses
`double`); claims about `atan2`/`sqrt`-based member functions instantiate
`K := ℝ`, while concrete evaluations instantiate `K := ℚ`.
-/

/-- A 3D point (Eigen's `Vector3d`), as a triple of coordinates. -/
abbrev Point3 (K : Type) := K × K × K

/-- The exceptions thrown by `NURBSCurve3D.cpp`, one constructor per distinct
throw site kind:
`DomainError` = `std::out_of_range` for a parameter outside `[start_param, end_param]`;
`EvalError` = `std::runtime_error` on a nonzero status from a SISL evaluation
(`s1227`, `s2550`, `s2556`);
`FitError` = failure of `s1356` in `update`;
`LengthError` = failure of `s1240` in `getCurveLength`;
`SearchError` = failure of `s1953` / `s1774` in the closest-point searches;
`NoClosestPointError` = the `std::logic_error` in `findOneClosestPoint`;
`SimplifyError` = failure (or missing curve) in `simplify`. -/
inductive Err where
  | DomainError
  | EvalError
  | FitError
  | LengthError
  | SearchError
  | NoClosestPointError
  | SimplifyError
deriving DecidableEq, Repr

/-- The SISL C library, as an oracle: each field is one SISL entry point used
by `NURBSCurve3D.cpp`, returning exactly the data the C call writes through
its output pointers (plus the `int` status).  Curve handles (`SISLCurve*`)
are modelled as natural numbers, with `Option ℕ` for a possibly-null pointer.
Output pointers are modelled as always written by the callee. -/
structure SISLLib (K : Type) where
  /-- Models `s1227(curve, 0, param, &leftknot, pos, &status)`: position evaluation,
  returns the written `pos` array and `status`. -/
  s1227 : Option ℕ → K → Point3 K × ℤ
  /-- Models `s2550(curve, &param, 1, &curvature, &status)`: curvature evaluation. -/
  s2550 : Option ℕ → K → K × ℤ
  /-- Models `s1240(curve, tolerance, &curve_length, &status)`: arc-length
  integration at the given geometric tolerance. -/
  s1240 : Option ℕ → K → K × ℤ
  /-- Models `s1356(coords, nbpoint, 3, point_types, 0, 0, 1, order, start, &end,
  &curve, &point_param, &nb_unique, &status)`: curve fitting from interleaved
  coordinates; returns `(end_param, new handle, status)`. -/
  s1356 : List K → List ℤ → ℤ → K → K × ℕ × ℤ
  /-- Models `s1953(curve, point, 3, geores, geores, &points_count, &points,
  &curves_count, &curves, &status)`: global closest-point search; returns the
  exact closest parameters, the closest intervals `(epar1[0], epar1[1])`, and
  the status.  The C call passes the same tolerance for both tolerance
  arguments, so the oracle takes it once. -/
  s1953 : Option ℕ → Point3 K → K → List K × List (K × K) × ℤ
  /-- Models `s1774(curve, point, 3, geores, start, end, guess, &param, &status)`:
  local closest-point search; returns `(param, status)`. -/
  s1774 : Option ℕ → Point3 K → K → K → K → K → K × ℤ
  /-- Models `s2559(curve, &param, 1, &p, t, n, b, &status)`: Frenet frame; returns
  the tangent, normal and binormal vectors and the status. -/
  s2559 : Option ℕ → K → Point3 K × Point3 K × Point3 K × ℤ
  /-- Models `s1940(curve, epsilon, order, order, 1, 10, &result, maxerr, &status)`:
  curve simplification; returns `(new handle, maxerr, status)`. -/
  s1940 : Option ℕ → Point3 K → ℤ → ℤ → ℤ → ℕ → ℕ × Point3 K × ℤ

/-- The state of a `NURBSCurve3D` object: its member fields, with the owned
`SISLCurve* curve` as an optional handle. -/
structure NURBSCurve3D (K : Type) where
  curve : Option ℕ
  geometric_resolution : K
  curve_order : ℤ
  points : List (Point3 K)
  start_param : K
  end_param : K
  has_curve_length : Bool
  curve_length : K
  has_curvature_max : Bool
  curvature_max : K
deriving DecidableEq, Repr

namespace NURBSCurve3D

variable {K : Type} [LinearOrderedField K]

/-- Member function `getPoint(param)`: domain check against `[start_param, end_param]`, then
`s1227` position evaluation. -/
def getPoint (lib : SISLLib K) (s : NURBSCurve3D K) (param : K) :
    Except Err (Point3 K) :=
  if param < s.start_param ∨ s.end_param < param then
    .error .DomainError
  else
    let r := lib.s1227 s.curve param
    if r.2 ≠ 0 then .error .EvalError else .ok r.1

/-- Member function `getCurvature(param)`: domain check, then `s2550` curvature evaluation. -/
def getCurvature (lib : SISLLib K) (s : NURBSCurve3D K) (param : K) :
    Except Err K :=
  if param < s.start_param ∨ s.end_param < param then
    .error .DomainError
  else
    let r := lib.s2550 s.curve param
    if r.2 ≠ 0 then .error .EvalError else .ok r.1

/-- Member function `getCurveLength()`: returns the cached value when `has_curve_length` is
set; otherwise calls `s1240`, which writes the `curve_length` member through
its output pointer before the status is checked, and sets the flag only on a
zero status. -/
def getCurveLength (lib : SISLLib K) (s : NURBSCurve3D K) :
    Except Err K × NURBSCurve3D K :=
  if s.has_curve_length then
    (.ok s.curve_length, s)
  else
    let r := lib.s1240 s.curve s.geometric_resolution
    if r.2 ≠ 0 then
      (.error .LengthError, { s with curve_length := r.1 })
    else
      (.ok r.1, { s with curve_length := r.1, has_curve_length := true })

/-- Member function `getUnitParameter()`: `(end_param - start_param) / getCurveLength()`.
(Field division by zero is total in `K`; the C code would produce an
infinity, a degenerate case no claim depends on.) -/
def getUnitParameter (lib : SISLLib K) (s : NURBSCurve3D K) :
    Except Err K × NURBSCurve3D K :=
  match getCurveLength lib s with
  | (.error e, s') => (.error e, s')
  | (.ok len, s') => (.ok ((s'.end_param - s'.start_param) / len), s')

/-- Member function `addPoint(pt)`: appends to the `points` member. -/
def addPoint (s : NURBSCurve3D K) (pt : Point3 K) : NURBSCurve3D K :=
  { s with points := s.points ++ [pt] }

/-- The interleaved coordinate array built at the top of `update()`. -/
def flattenPoints : List (Point3 K) → List K
  | [] => []
  | (x, y, z) :: ps => x :: y :: z :: flattenPoints ps

/-- Member function `update()`: builds the interleaved coordinate array and the all-ordinary
`point_types` array, sets `start_param = 0.0`, frees and nulls the current
curve, then calls `s1356` (open curve, no end conditions); `end_param` is
written through the output pointer; a nonzero status raises `FitError`
(leaving the already-performed mutations in place), otherwise the new handle
is stored.  Note that neither cache flag is touched. -/
def update (lib : SISLLib K) (s : NURBSCurve3D K) :
    Except Err Unit × NURBSCurve3D K :=
  let coords := flattenPoints s.points
  let types : List ℤ := List.replicate s.points.length 1
  let s₁ := { s with start_param := 0, curve := none }
  let r := lib.s1356 coords types s.curve_order 0
  let s₂ := { s₁ with end_param := r.1 }
  if r.2.2 ≠ 0 then
    (.error .FitError, s₂)
  else
    (.ok (), { s₂ with curve := some r.2.1 })

/-- Member function `clear()`: frees and nulls the curve and clears the point list.  Neither
cache flag is touched. -/
def clear (s : NURBSCurve3D K) : NURBSCurve3D K :=
  { s with curve := none, points := [] }

/-- Member function `findClosestPoints(pt, result_points, result_curves, geores)`: calls
`s1953`; a nonzero status raises `SearchError`; otherwise the interval pairs
and then the exact points are pushed onto the caller's vectors (which are not
cleared first). -/
def findClosestPoints (lib : SISLLib K) (s : NURBSCurve3D K) (pt : Point3 K)
    (result_points : List K) (result_curves : List (K × K)) (geores : K) :
    Except Err Unit × List K × List (K × K) :=
  let r := lib.s1953 s.curve pt geores
  if r.2.2 ≠ 0 then
    (.error .SearchError, result_points, result_curves)
  else
    (.ok (), result_points ++ r.1, result_curves ++ r.2.1)

/-- Member function `findOneClosestPoint(pt, geores)`: runs `findClosestPoints` on fresh empty
vectors; returns the first exact point if any, else the start of the first
interval if any, else raises the `std::logic_error`. -/
def findOneClosestPoint (lib : SISLLib K) (s : NURBSCurve3D K) (pt : Point3 K)
    (geores : K) : Except Err K :=
  match findClosestPoints lib s pt [] [] geores with
  | (.error e, _, _) => .error e
  | (.ok _, pts, cvs) =>
    match pts with
    | p :: _ => .ok p
    | [] =>
      match cvs with
      | c :: _ => .ok c.1
      | [] => .error .NoClosestPointError

/-- Member function `localClosestPointSearch(pt, guess, start, end, geores)`: calls `s1774`;
only a strictly negative status raises `SearchError`; otherwise the found
parameter is returned (positive warning statuses included). -/
def localClosestPointSearch (lib : SISLLib K) (s : NURBSCurve3D K)
    (pt : Point3 K) (guess startp endp geores : K) : Except Err K :=
  let r := lib.s1774 s.curve pt geores startp endp guess
  if r.2 < 0 then .error .SearchError else .ok r.1

/-- Number of executions of the body of the sampling loop
`for (p = start_param; p <= end_param; p += delPara)` in `getCurvatureMax`:
the body runs for the indices `i` with `start_param + i * delPara ≤
end_param`.  For a positive step that is `⌊(end_param - start_param) /
delPara⌋ + 1` iterations (when the interval is nonempty); for a nonpositive
step with a nonempty interval the C loop never terminates, and the model
evaluates a single sample in that case. -/
def iterCount [FloorRing K] (a b del : K) : ℕ :=
  if a ≤ b then (if 0 < del then ⌊(b - a) / del⌋₊ + 1 else 1) else 0

/-- The body of the sampling loop of `getCurvatureMax`: starting at sample
index `i` with `n` iterations left and running maximum `acc` (the
`curvature_max` member, assigned each iteration), evaluates `getCurvature`
at `start_param + i * delPara`; an exception propagates, leaving the partial
running maximum in the member field. -/
def curvMaxLoop (lib : SISLLib K) (s : NURBSCurve3D K) (del : K) :
    ℕ → ℕ → K → Except Err Unit × K
  | _, 0, acc => (.ok (), acc)
  | i, n + 1, acc =>
    match getCurvature lib s (s.start_param + i * del) with
    | .error e => (.error e, acc)
    | .ok curvature =>
      curvMaxLoop lib s del (i + 1) n (if acc < curvature then curvature else acc)

/-- Member function `getCurvatureMax()`: returns the cached value when `has_curvature_max` is
set; otherwise computes the step `getUnitParameter() * geometric_resolution`
(an exception from `getUnitParameter` propagates before `curvature_max` is
touched), zeroes `curvature_max`, runs the sampling loop updating the member
each iteration, and sets the flag only on completion. -/
def getCurvatureMax [FloorRing K] (lib : SISLLib K) (s : NURBSCurve3D K) :
    Except Err K × NURBSCurve3D K :=
  if s.has_curvature_max then
    (.ok s.curvature_max, s)
  else
    match getUnitParameter lib s with
    | (.error e, s₁) => (.error e, s₁)
    | (.ok u, s₁) =>
      let del := u * s₁.geometric_resolution
      let n := iterCount s₁.start_param s₁.end_param del
      match curvMaxLoop lib s₁ del 0 n 0 with
      | (.error e, acc) => (.error e, { s₁ with curvature_max := acc })
      | (.ok _, acc) =>
        (.ok acc, { s₁ with curvature_max := acc, has_curvature_max := true })

/-- Member function `getFrenetFrame(param)`: calls `s2559` and assembles the rows `t`, `n`,
`b` into a frame.  The status written by `s2559` is never inspected and there
is no domain check, so this is a total function. -/
def getFrenetFrame (lib : SISLLib K) (s : NURBSCurve3D K) (param : K) :
    Point3 K × Point3 K × Point3 K :=
  let r := lib.s2559 s.curve param
  (r.1, r.2.1, r.2.2.1)

/-- Member function `simplify(tolerance)`: raises `SimplifyError` when no curve is present;
otherwise calls `s1940` with the per-axis tolerance box, `curve_order` for
both derivative counts, closed-curve flag 1 and 10 iterations; a nonzero
status raises `SimplifyError` before any member is touched; on success the
old handle is freed, the new one stored, and the `maxerr` array returned. -/
def simplify (lib : SISLLib K) (s : NURBSCurve3D K) (tolerance : K) :
    Except Err (List K) × NURBSCurve3D K :=
  match s.curve with
  | none => (.error .SimplifyError, s)
  | some c =>
    let r := lib.s1940 (some c) (tolerance, tolerance, tolerance)
      s.curve_order s.curve_order 1 10
    if r.2.2 ≠ 0 then
      (.error .SimplifyError, s)
    else
      (.ok [r.2.1.1, r.2.1.2.1, r.2.1.2.2], { s with curve := some r.1 })

end NURBSCurve3D

/-- C `atan2(y, x)`: the argument of the complex number `x + i y`, valued in
`(-π, π]` (with `atan2 0 0 = 0`, as in C). -/
noncomputable def atan2 (y x : ℝ) : ℝ := Complex.arg ⟨x, y⟩

/-- Eigen's `Vector2d::normalize()`: division by the Euclidean norm.  (For
the zero vector the C version produces NaNs; here division by zero gives the
zero vector, a degenerate case no claim depends on.) -/
noncomputable def normalize2 (v : ℝ × ℝ) : ℝ × ℝ :=
  let n := Real.sqrt (v.1 ^ 2 + v.2 ^ 2)
  (v.1 / n, v.2 / n)

/-- Eigen's `Vector3d::norm()`: the Euclidean norm. -/
noncomputable def norm3 (v : Point3 ℝ) : ℝ :=
  Real.sqrt (v.1 ^ 2 + v.2.1 ^ 2 + v.2.2 ^ 2)

/-- Planar (z-ignored) Euclidean distance between two 3D points, as the spec
words it for `distanceError`. -/
noncomputable def planarDist (p q : Point3 ℝ) : ℝ :=
  Real.sqrt ((p.1 - q.1) ^ 2 + (p.2.1 - q.2.1) ^ 2)

namespace NURBSCurve3D

/-- Member function `getHeading(param)`: normalizes the horizontal projection of the Frenet
tangent (`frame(0,0)`, `frame(0,1)`) and returns its `atan2` angle.  Total,
like `getFrenetFrame`. -/
noncomputable def getHeading (lib : SISLLib ℝ) (s : NURBSCurve3D ℝ)
    (param : ℝ) : ℝ :=
  let frame := getFrenetFrame lib s param
  let Xaxis := normalize2 (frame.1.1, frame.1.2.1)
  atan2 Xaxis.2 Xaxis.1

/-- Member function `headingError(actZRot, param)`: the raw difference
`actZRot - getHeading(param)`, corrected once by `M_2_PI` when it falls
outside `[-π, π]`.  The C macro `M_2_PI` is `2/π` (not `2π`), and that is
what the source adds or subtracts. -/
noncomputable def headingError (lib : SISLLib ℝ) (s : NURBSCurve3D ℝ)
    (actZRot param : ℝ) : ℝ :=
  let error := actZRot - getHeading lib s param
  if Real.pi < error then error - 2 / Real.pi
  else if error < -Real.pi then error + 2 / Real.pi
  else error

/-- Member function `distanceError(pt, param)`: the error vector `pt - getPoint(param)` with
its z component zeroed; its normalized planar direction's `atan2` angle minus
`getHeading(param)`; the result is `±‖error‖` according to the sign of that
angle.  `getPoint` may throw, and that exception propagates. -/
noncomputable def distanceError (lib : SISLLib ℝ) (s : NURBSCurve3D ℝ)
    (pt : Point3 ℝ) (param : ℝ) : Except Err ℝ :=
  match getPoint lib s param with
  | .error e => .error e
  | .ok q =>
    let error : Point3 ℝ := (pt.1 - q.1, pt.2.1 - q.2.1, 0)
    let pt_vec := normalize2 (error.1, error.2.1)
    let angle := atan2 pt_vec.2 pt_vec.1 - getHeading lib s param
    .ok (if 0 ≤ angle then norm3 error else -(norm3 error))

/-- The relative angle used by `distanceError`'s sign test, as the spec words
it: the planar angle of the error vector (computed by the source as the
`atan2` of its normalized planar direction) relative to the curve's heading
at the parameter, where `q` is the curve point `getPoint(param)`. -/
noncomputable def relativeAngle (lib : SISLLib ℝ) (s : NURBSCurve3D ℝ)
    (pt q : Point3 ℝ) (param : ℝ) : ℝ :=
  let pt_vec := normalize2 (pt.1 - q.1, pt.2.1 - q.2.1)
  atan2 pt_vec.2 pt_vec.1 - getHeading lib s param

end NURBSCurve3D

/-! Concrete library instances and object states, used to evaluate the model
at specific inputs. -/

/-- A concrete rational library: fitting succeeds with handle 2 and end
parameter 10; the length integration distinguishes the handles (5 on the old
curve 1, 7 on the refitted curve 2); the global search finds exact points
`[4, 6]` and intervals `[(1, 2), (8, 9)]`; the local search returns the
guess itself with the positive warning status 1. -/
def qlib : SISLLib ℚ where
  s1227 := fun _ p => ((p, 2, 3), 0)
  s2550 := fun _ _ => (3, 0)
  s1240 := fun c _ => (if c = some 2 then 7 else 5, 0)
  s1356 := fun _ _ _ _ => (10, 2, 0)
  s1953 := fun _ _ _ => ([4, 6], [(1, 2), (8, 9)], 0)
  s1774 := fun _ _ _ _ _ g => (g, 1)
  s2559 := fun _ _ => ((1, 0, 0), (0, 1, 0), (0, 0, 1), 0)
  s1940 := fun _ _ _ _ _ _ => (9, (1, 1, 1), 0)

/-- A library whose length integration disagrees with `qlib` everywhere. -/
def qlib2 : SISLLib ℚ :=
  { qlib with s1240 := fun _ _ => (100, 0) }

/-- A library whose fit and simplification both report failure status 1. -/
def qlibFail : SISLLib ℚ :=
  { qlib with s1356 := fun _ _ _ _ => (10, 2, 1),
              s1940 := fun _ _ _ _ _ _ => (9, (1, 1, 1), 1) }

/-- A concrete curve object: fitted handle 1, domain `[0, 10]`, empty
caches. -/
def qstate : NURBSCurve3D ℚ where
  curve := some 1
  geometric_resolution := 1/10
  curve_order := 3
  points := [(0, 0, 0), (1, 0, 0), (2, 0, 0)]
  start_param := 0
  end_param := 10
  has_curve_length := false
  curve_length := -1
  has_curvature_max := false
  curvature_max := -1

/-- The same object with both caches filled (length 5, max curvature 9). -/
def qstateCached : NURBSCurve3D ℚ :=
  { qstate with has_curve_length := true, curve_length := 5,
                has_curvature_max := true, curvature_max := 9 }

/-- The state `qstate` reaches after a first successful `getCurveLength`
against `qlib`. -/
def qstateLen : NURBSCurve3D ℚ :=
  { qstate with curve_length := 5, has_curve_length := true }

/-- A concrete real library: position evaluation returns the origin, and the
Frenet tangent is the x-axis (heading 0). -/
def rlib : SISLLib ℝ where
  s1227 := fun _ _ => ((0, 0, 0), 0)
  s2550 := fun _ _ => (0, 0)
  s1240 := fun _ _ => (1, 0)
  s1356 := fun _ _ _ _ => (10, 2, 0)
  s1953 := fun _ _ _ => ([], [], 0)
  s1774 := fun _ _ _ _ _ g => (g, 0)
  s2559 := fun _ _ => ((1, 0, 0), (0, 1, 0), (0, 0, 1), 0)
  s1940 := fun _ _ _ _ _ _ => (2, (0, 0, 0), 0)

/-- Like `rlib` but the Frenet evaluation reports the error status `-1`
(with the same frame vectors). -/
def rlibBad : SISLLib ℝ :=
  { rlib with s2559 := fun _ _ => ((1, 0, 0), (0, 1, 0), (0, 0, 1), -1) }

/-- Like `rlib` but the Frenet tangent is the negative x-axis (heading π). -/
def rlibPi : SISLLib ℝ :=
  { rlib with s2559 := fun _ _ => ((-1, 0, 0), (0, 1, 0), (0, 0, 1), 0) }

/-- A concrete real curve object with domain `[0, 10]`. -/
def rstate : NURBSCurve3D ℝ where
  curve := some 1
  geometric_resolution := 1
  curve_order := 3
  points := [(0, 0, 0), (1, 0, 0), (2, 0, 0)]
  start_param := 0
  end_param := 10
  has_curve_length := false
  curve_length := -1
  has_curvature_max := false
  curvature_max := -1

open NURBSCurve3D

/-- Helper: the planar distance is nonnegative. -/
theorem planarDist_nonneg (p q : Point3 ℝ) : 0 ≤ planarDist p q :=
  Real.sqrt_nonneg _

/-- C1: the spec says both caches are invalidated by every fit or clear, but
`update()` and `clear()` never touch `has_curve_length` or
`has_curvature_max`; after a successful refit (new handle 2) and after a
clear, `getCurveLength()` and `getCurvatureMax()` still return the stale
values 5 and 9 cached before the call, although a fresh length integration
on the refitted curve would return 7. -/
theorem update_clear_leave_caches_stale :
    (update qlib qstateCached).1 = .ok () ∧
    (getCurveLength qlib (update qlib qstateCached).2).1 = .ok 5 ∧
    (getCurvatureMax qlib (update qlib qstateCached).2).1 = .ok 9 ∧
    (getCurveLength qlib (clear qstateCached)).1 = .ok 5 ∧
    (getCurvatureMax qlib (clear qstateCached)).1 = .ok 9 ∧
    (qlib.s1240 (update qlib qstateCached).2.curve
      qstateCached.geometric_resolution).1 = 7 :=
  ⟨rfl, rfl, rfl, rfl, rfl, rfl⟩

/-- C3 counterexample: a failed `update` (library fit status 1) reports
`FitError` but does not leave the object as it was: the old handle has been
freed and nulled. -/
theorem update_failure_mutates_state :
    (update qlibFail qstateCached).1 = .error .FitError ∧
    (update qlibFail qstateCached).2 ≠ qstateCached :=
  ⟨rfl, by decide⟩

/-- C3 (amended): a failed `simplify` leaves the object exactly as it was,
but a failed `update` leaves it with the curve handle freed (absent), the
start parameter reset to 0 and the end parameter as written by the library;
the point list, scalar fields and both caches keep their old values. -/
theorem failure_atomicity {K : Type} [LinearOrderedField K]
    (lib : SISLLib K) (s : NURBSCurve3D K) (tol : K) :
    (∀ e, (simplify lib s tol).1 = .error e → (simplify lib s tol).2 = s) ∧
    (∀ e, (update lib s).1 = .error e →
      (update lib s).2 =
        { s with curve := none, start_param := 0,
                 end_param := (lib.s1356 (flattenPoints s.points)
                   (List.replicate s.points.length 1) s.curve_order 0).1 }) := by
  constructor
  · intro e he
    unfold simplify at he ⊢
    cases hc : s.curve with
    | none => simp
    | some c =>
      simp only [hc] at he ⊢
      by_cases hst :
          (lib.s1940 (some c) (tol, tol, tol) s.curve_order s.curve_order 1 10).2.2 ≠ 0
      · simp [hst]
      · simp [hst] at he
  · intro e he
    unfold update at he ⊢
    by_cases hst :
        (lib.s1356 (flattenPoints s.points) (List.replicate s.points.length 1)
          s.curve_order 0).2.2 ≠ 0
    · simp [hst]
    · simp [hst] at he

/-- C3 witness: at the concrete failing library, `simplify` leaves the state
unchanged and `update` leaves exactly the partial mutation. -/
theorem failure_atomicity_witness :
    (simplify qlibFail qstateCached 1).2 = qstateCached ∧
    (update qlibFail qstateCached).2 =
      { qstateCached with curve := none, start_param := 0,
                          end_param :=
                            (qlibFail.s1356 (flattenPoints qstateCached.points)
                              (List.replicate qstateCached.points.length 1)
                              qstateCached.curve_order 0).1 } :=
  ⟨(failure_atomicity qlibFail qstateCached 1).1 .SimplifyError rfl,
   (failure_atomicity qlibFail qstateCached 1).2 .FitError rfl⟩

/-- C4: `getPoint` fails with the domain error exactly on parameters strictly
outside `[start_param, end_param]`, and succeeds with the library's position
whenever the parameter is in the closed interval, a curve is present and the
library reports status 0. -/
theorem getPoint_domain {K : Type} [LinearOrderedField K]
    (lib : SISLLib K) (s : NURBSCurve3D K) (p : K) :
    ((p < s.start_param ∨ s.end_param < p) →
      getPoint lib s p = .error .DomainError) ∧
    (∀ c, s.curve = some c → s.start_param ≤ p → p ≤ s.end_param →
      (lib.s1227 (some c) p).2 = 0 →
      getPoint lib s p = .ok (lib.s1227 (some c) p).1) := by
  constructor
  · intro h
    simp [getPoint, h]
  · intro c hc h1 h2 hst
    have hout : ¬ (p < s.start_param ∨ s.end_param < p) := by
      push_neg
      exact ⟨h1, h2⟩
    simp [getPoint, hout, hc, hst]

/-- C4 witness: inside the domain `getPoint` evaluates the curve; at 11, just
past the end parameter 10, it reports the domain error. -/
theorem getPoint_domain_witness :
    getPoint qlib qstate 4 = .ok (qlib.s1227 (some 1) 4).1 ∧
    getPoint qlib qstate 11 = .error .DomainError :=
  ⟨(getPoint_domain qlib qstate 4).2 1 rfl (by decide) (by decide) rfl,
   (getPoint_domain qlib qstate 11).1 (Or.inr (by decide))⟩

/-- C6: on a zero search status, `findOneClosestPoint` returns the first
exact closest point when any exists, else the start of the first interval
when any exists, else fails with the no-closest-point error. -/
theorem findOneClosestPoint_cases {K : Type} [LinearOrderedField K]
    (lib : SISLLib K) (s : NURBSCurve3D K) (pt : Point3 K) (geores : K)
    (h0 : (lib.s1953 s.curve pt geores).2.2 = 0) :
    (∀ p rest, (lib.s1953 s.curve pt geores).1 = p :: rest →
      findOneClosestPoint lib s pt geores = .ok p) ∧
    ((lib.s1953 s.curve pt geores).1 = [] →
      ∀ c rest, (lib.s1953 s.curve pt geores).2.1 = c :: rest →
        findOneClosestPoint lib s pt geores = .ok c.1) ∧
    ((lib.s1953 s.curve pt geores).1 = [] →
      (lib.s1953 s.curve pt geores).2.1 = [] →
      findOneClosestPoint lib s pt geores = .error .NoClosestPointError) := by
  have hfc : findClosestPoints lib s pt [] [] geores =
      (.ok (), (lib.s1953 s.curve pt geores).1,
        (lib.s1953 s.curve pt geores).2.1) := by
    simp [findClosestPoints, h0]
  refine ⟨?_, ?_, ?_⟩
  · intro p rest hp
    simp [findOneClosestPoint, hfc, hp]
  · intro hnil c rest hc
    simp [findOneClosestPoint, hfc, hnil, hc]
  · intro hnil hcnil
    simp [findOneClosestPoint, hfc, hnil, hcnil]

/-- C6 witness: with exact points `[4, 6]` reported, the first one, 4, is
returned. -/
theorem findOneClosestPoint_cases_witness :
    findOneClosestPoint qlib qstate (5, 1, 0) 1 = .ok 4 :=
  (findOneClosestPoint_cases qlib qstate (5, 1, 0) 1 rfl).1 4 [6] rfl

/-- C7: once `getCurveLength` has succeeded, a second call returns the same
value and the same state, whatever library the second call sees: the cached
value is returned without recomputation. -/
theorem getCurveLength_cached_idempotent {K : Type} [LinearOrderedField K]
    (lib lib' : SISLLib K) (s s' : NURBSCurve3D K) (v : K)
    (h : getCurveLength lib s = (.ok v, s')) :
    getCurveLength lib' s' = (.ok v, s') := by
  unfold getCurveLength at h ⊢
  by_cases hc : s.has_curve_length
  · rw [if_pos hc] at h
    simp only [Prod.mk.injEq, Except.ok.injEq] at h
    obtain ⟨h1, h2⟩ := h
    subst h2
    rw [if_pos hc, h1]
  · rw [if_neg hc] at h
    by_cases hr : (lib.s1240 s.curve s.geometric_resolution).2 ≠ 0
    · rw [if_pos hr] at h
      simp at h
    · rw [if_neg hr] at h
      simp only [Prod.mk.injEq, Except.ok.injEq] at h
      obtain ⟨h1, h2⟩ := h
      subst h2
      simp [h1]

/-- C7 witness: after a first call caching length 5, the second call returns
5 and leaves the state alone even against a library integrating to 100. -/
theorem getCurveLength_cached_idempotent_witness :
    getCurveLength qlib2 qstateLen = (.ok 5, qstateLen) :=
  getCurveLength_cached_idempotent qlib qlib2 qstate qstateLen 5 rfl

/-- C8: the local search fails exactly on a strictly negative library status
and otherwise returns the found parameter (warning statuses included), while
the global search fails on every nonzero status. -/
theorem search_status_conventions {K : Type} [LinearOrderedField K]
    (lib : SISLLib K) (s : NURBSCurve3D K) (pt : Point3 K)
    (guess startp endp geores : K) (rpts : List K) (rcvs : List (K × K)) :
    ((lib.s1774 s.curve pt geores startp endp guess).2 < 0 →
      localClosestPointSearch lib s pt guess startp endp geores =
        .error .SearchError) ∧
    (0 ≤ (lib.s1774 s.curve pt geores startp endp guess).2 →
      localClosestPointSearch lib s pt guess startp endp geores =
        .ok (lib.s1774 s.curve pt geores startp endp guess).1) ∧
    ((lib.s1953 s.curve pt geores).2.2 ≠ 0 →
      (findClosestPoints lib s pt rpts rcvs geores).1 = .error .SearchError) ∧
    ((lib.s1953 s.curve pt geores).2.2 = 0 →
      (findClosestPoints lib s pt rpts rcvs geores).1 = .ok ()) := by
  refine ⟨fun h => ?_, fun h => ?_, fun h => ?_, fun h => ?_⟩
  · simp [localClosestPointSearch, h]
  · have h' := not_lt.mpr h
    simp [localClosestPointSearch, h']
  · simp [findClosestPoints, h]
  · simp [findClosestPoints, h]

/-- C8 witness: with the library returning warning status 1, the local
search still returns the found parameter 2; the same library's zero-status
global search succeeds. -/
theorem search_status_conventions_witness :
    localClosestPointSearch qlib qstate (5, 1, 0) 2 0 10 1 = .ok 2 ∧
    (findClosestPoints qlib qstate (5, 1, 0) [] [] 1).1 = .ok () :=
  ⟨(search_status_conventions qlib qstate (5, 1, 0) 2 0 10 1 [] []).2.1
      (by decide),
   (search_status_conventions qlib qstate (5, 1, 0) 2 0 10 1 [] []).2.2.2 rfl⟩

/-- C10: a successful global search appends the library's exact points and
intervals after whatever the caller's vectors already contain, preserving
the existing elements. -/
theorem findClosestPoints_appends {K : Type} [LinearOrderedField K]
    (lib : SISLLib K) (s : NURBSCurve3D K) (pt : Point3 K)
    (rpts : List K) (rcvs : List (K × K)) (geores : K)
    (h0 : (lib.s1953 s.curve pt geores).2.2 = 0) :
    (findClosestPoints lib s pt rpts rcvs geores).2.1 =
      rpts ++ (lib.s1953 s.curve pt geores).1 ∧
    (findClosestPoints lib s pt rpts rcvs geores).2.2 =
      rcvs ++ (lib.s1953 s.curve pt geores).2.1 := by
  simp [findClosestPoints, h0]

/-- C10 witness: pre-existing entries 100 and (7, 7) survive in front of the
appended search results. -/
theorem findClosestPoints_appends_witness :
    (findClosestPoints qlib qstate (5, 1, 0) [100] [(7, 7)] 1).2.1 =
      [100, 4, 6] ∧
    (findClosestPoints qlib qstate (5, 1, 0) [100] [(7, 7)] 1).2.2 =
      [(7, 7), (1, 2), (8, 9)] :=
  ⟨(findClosestPoints_appends qlib qstate (5, 1, 0) [100] [(7, 7)] 1 rfl).1,
   (findClosestPoints_appends qlib qstate (5, 1, 0) [100] [(7, 7)] 1 rfl).2⟩

/-- Helper: against `rlib` the Frenet tangent is the x-axis, so the heading
is 0 at every parameter. -/
theorem rlib_heading_zero (p : ℝ) : getHeading rlib rstate p = 0 := by
  have h1 : Real.sqrt ((1 : ℝ) ^ 2 + 0 ^ 2) = 1 := by
    rw [show ((1 : ℝ) ^ 2 + 0 ^ 2) = 1 by norm_num, Real.sqrt_one]
  simp only [getHeading, getFrenetFrame, rlib, normalize2, atan2, h1]
  norm_num
  rw [show (⟨1, 0⟩ : ℂ) = 1 from Complex.ext rfl rfl]
  exact Complex.arg_one

/-- Helper: against `rlibPi` the Frenet tangent is the negative x-axis, so
the heading is π at every parameter. -/
theorem rlibPi_heading_pi (p : ℝ) : getHeading rlibPi rstate p = Real.pi := by
  have h1 : Real.sqrt ((-1 : ℝ) ^ 2 + 0 ^ 2) = 1 := by
    rw [show ((-1 : ℝ) ^ 2 + 0 ^ 2) = 1 by norm_num, Real.sqrt_one]
  simp only [getHeading, getFrenetFrame, rlibPi, rlib, normalize2, atan2, h1]
  norm_num
  rw [show (⟨-1, 0⟩ : ℂ) = -1 from Complex.ext (by norm_num) (by norm_num)]
  exact Complex.arg_neg_one

/-- C2: refuted on the source: the correction applied by `headingError` is
the C macro `M_2_PI`, which is `2/π`, not a full turn `2π`.  At actual
heading 6 over curve heading 0 the result `6 - 2/π` is still greater than
π (so the output does not lie in `(-π, π]`), and it differs from the
claimed single-turn wrap `6 - 2π`. -/
theorem headingError_wrap_bug :
    Real.pi < headingError rlib rstate 6 1 ∧
    headingError rlib rstate 6 1 ≠ 6 - 2 * Real.pi := by
  have hpi1 : Real.pi < 3.15 := Real.pi_lt_d2
  have hpi2 : 3 < Real.pi := by
    have := Real.pi_gt_three
    linarith
  have hpos : 0 < Real.pi := by linarith
  have hval : headingError rlib rstate 6 1 = 6 - 2 / Real.pi := by
    simp only [headingError, rlib_heading_zero, sub_zero]
    rw [if_pos (by linarith : Real.pi < (6 : ℝ))]
  have hdiv : 2 / Real.pi < 1 := by
    rw [div_lt_one hpos]
    linarith
  constructor
  · rw [hval]
    linarith
  · rw [hval]
    intro h
    have h2 : 2 / Real.pi = 2 * Real.pi := by linarith
    rw [div_eq_iff (by linarith : Real.pi ≠ 0)] at h2
    nlinarith

/-- C9: the Frenet frame member ignores the library status entirely: two
libraries whose `s2559` write the same tangent, normal and binormal rows
(whatever statuses they report, and with no domain restriction on the
parameter) yield the same frame and the same heading, and both members are
total functions. -/
theorem frenetFrame_heading_ignore_status (lib₁ lib₂ : SISLLib ℝ)
    (s : NURBSCurve3D ℝ) (param : ℝ)
    (ht : (lib₁.s2559 s.curve param).1 = (lib₂.s2559 s.curve param).1)
    (hn : (lib₁.s2559 s.curve param).2.1 = (lib₂.s2559 s.curve param).2.1)
    (hb : (lib₁.s2559 s.curve param).2.2.1 = (lib₂.s2559 s.curve param).2.2.1) :
    getFrenetFrame lib₁ s param = getFrenetFrame lib₂ s param ∧
    getHeading lib₁ s param = getHeading lib₂ s param := by
  have hf : getFrenetFrame lib₁ s param = getFrenetFrame lib₂ s param := by
    simp only [getFrenetFrame, ht, hn, hb]
  exact ⟨hf, by simp only [getHeading, hf]⟩

/-- C9 witness: at parameter 20, far outside the domain `[0, 10]`, a library
reporting Frenet status -1 gives the same frame and heading as one reporting
status 0. -/
theorem frenetFrame_heading_ignore_status_witness :
    getFrenetFrame rlib rstate 20 = getFrenetFrame rlibBad rstate 20 ∧
    getHeading rlib rstate 20 = getHeading rlibBad rstate 20 :=
  frenetFrame_heading_ignore_status rlib rlibBad rstate 20 rfl rfl rfl

/-- C5 (amended): whenever `getPoint` succeeds with curve point `q`, the
magnitude of `distanceError` is the planar (z-ignored) Euclidean distance
from the point to `q`, and the result is `+` that distance when the computed
relative angle (the `atan2` of the normalized planar error direction minus
the heading, taken without wrapping) is ≥ 0 and `-` it otherwise.  The
universal reflection sign-flip of the original claim does not hold. -/
theorem distanceError_sign_magnitude (lib : SISLLib ℝ) (s : NURBSCurve3D ℝ)
    (pt q : Point3 ℝ) (param : ℝ)
    (h : NURBSCurve3D.getPoint lib s param = .ok q) :
    (0 ≤ relativeAngle lib s pt q param →
      distanceError lib s pt param = .ok (planarDist pt q)) ∧
    (relativeAngle lib s pt q param < 0 →
      distanceError lib s pt param = .ok (-planarDist pt q)) ∧
    (∀ d, distanceError lib s pt param = .ok d → |d| = planarDist pt q) := by
  have hnorm : norm3 (pt.1 - q.1, pt.2.1 - q.2.1, 0) = planarDist pt q := by
    simp only [norm3, planarDist]
    norm_num
  have hde : distanceError lib s pt param =
      .ok (if 0 ≤ relativeAngle lib s pt q param then planarDist pt q
           else -planarDist pt q) := by
    simp only [distanceError, h, relativeAngle, hnorm]
  refine ⟨fun ha => ?_, fun ha => ?_, fun d hd => ?_⟩
  · rw [hde, if_pos ha]
  · rw [hde, if_neg (not_le.mpr ha)]
  · rw [hde] at hd
    have hd' : (if 0 ≤ relativeAngle lib s pt q param then planarDist pt q
        else -planarDist pt q) = d := by
      injection hd
    by_cases ha : 0 ≤ relativeAngle lib s pt q param
    · rw [if_pos ha] at hd'
      rw [← hd', abs_of_nonneg (planarDist_nonneg pt q)]
    · rw [if_neg ha] at hd'
      rw [← hd', abs_neg, abs_of_nonneg (planarDist_nonneg pt q)]

/-- C5 witness: the point (3, 0, 0) against curve point (0, 0, 0) and
heading 0 has relative angle 0, so the signed distance is plus the planar
distance. -/
theorem distanceError_sign_magnitude_witness :
    distanceError rlib rstate (3, 0, 0) 1 = .ok (planarDist (3, 0, 0) (0, 0, 0)) := by
  have hp : getPoint rlib rstate 1 = .ok (0, 0, 0) := by
    have hin : ¬ ((1 : ℝ) < rstate.start_param ∨ rstate.end_param < 1) := by
      simp only [rstate]
      push_neg
      norm_num
    simp [getPoint, rlib, hin]
  have h9 : Real.sqrt (((3 : ℝ) - 0) ^ 2 + ((0 : ℝ) - 0) ^ 2) = 3 := by
    rw [show (((3 : ℝ) - 0) ^ 2 + ((0 : ℝ) - 0) ^ 2) = 3 ^ 2 by norm_num,
      Real.sqrt_sq (by norm_num)]
  have hang : 0 ≤ relativeAngle rlib rstate (3, 0, 0) (0, 0, 0) 1 := by
    simp only [relativeAngle, normalize2, atan2, h9, rlib_heading_zero, sub_zero]
    norm_num
  exact (distanceError_sign_magnitude rlib rstate (3, 0, 0) (0, 0, 0) 1 hp).1 hang

/-- C5 counterexample: with the curve point at the origin and heading π (the
tangent along the negative x-axis, so the tangent line at the parameter is
the x-axis), the points (-1, -1, 0) and (-1, 1, 0) are each other's
reflections across that tangent line, yet `distanceError` returns the same
strictly negative value -√2 for both: the sign does not flip under
reflection (the unwrapped angle difference leaves `(-π, π]` on one side). -/
theorem distanceError_reflection_no_flip :
    distanceError rlibPi rstate (-1, -1, 0) 1 = .ok (-(Real.sqrt 2)) ∧
    distanceError rlibPi rstate (-1, 1, 0) 1 = .ok (-(Real.sqrt 2)) ∧
    (0 : ℝ) < Real.sqrt 2 := by
  have hs2 : (0 : ℝ) < Real.sqrt 2 := Real.sqrt_pos.mpr (by norm_num)
  have hp : getPoint rlibPi rstate 1 = .ok (0, 0, 0) := by
    have hin : ¬ ((1 : ℝ) < rstate.start_param ∨ rstate.end_param < 1) := by
      simp only [rstate]
      push_neg
      norm_num
    simp [getPoint, rlibPi, rlib, hin]
  have arglt : ∀ x y : ℝ, y ≠ 0 → Complex.arg ⟨x, y⟩ < Real.pi := by
    intro x y hy
    refine lt_of_le_of_ne (Complex.arg_le_pi _) fun hπ => ?_
    exact hy (Complex.arg_eq_pi_iff.mp hπ).2
  have hyne : (-1 : ℝ) / Real.sqrt 2 ≠ 0 := by
    rw [div_ne_zero_iff]
    exact ⟨by norm_num, ne_of_gt hs2⟩
  have hyne' : ((Real.sqrt 2)⁻¹ : ℝ) ≠ 0 := inv_ne_zero (ne_of_gt hs2)
  refine ⟨?_, ?_, hs2⟩
  · simp only [distanceError, hp, normalize2, atan2, norm3, rlibPi_heading_pi]
    norm_num
    intro hge
    exact absurd hge (not_le.mpr (arglt _ _ hyne))
  · simp only [distanceError, hp, normalize2, atan2, norm3, rlibPi_heading_pi]
    norm_num
    intro hge
    exact absurd hge (not_le.mpr (arglt _ _ hyne'))
